import Mathlib

/-!
Verification of the song-director state-synchronization core
(`src/main.rs`). The shared state is a tokio `watch` channel holding a
`SectionTuple = (Option<char>, Option<NonZeroUsize>)`; three HTTP handlers
mutate it and each websocket observer session streams rendered projections
of it. We embed the channel as a value plus a version counter (each
`send_replace` / `send_modify` bumps the version and thereby notifies
subscribers), receivers as the version they last observed, and the
`section_socket` loop body as a step function on the readiness of its two
`select!` branches.
-/

namespace SongDirector

/-- SectionTuple from `main.rs`: `(Option<char>, Option<NonZeroUsize>)`.
The number is a `Nat` here; its positivity is enforced at the request
boundary (`SectionNumber` deserializes a `NonZeroUsize`), mirrored by
`parse_section_number` below. -/
abbrev SectionTuple := Option Char × Option Nat

/-- Embedding of `tokio::sync::watch`: the current value together with a
version counter. Every send increments the version; a receiver compares the
channel version against the version it has seen to detect a change. -/
structure WatchChannel (α : Type) where
  value : α
  version : Nat
  deriving Repr, DecidableEq

/-- Embedding of `watch::Receiver`: the version this receiver has last
marked as seen (`changed()` resolves exactly when the channel version
differs from it). -/
structure Receiver where
  seen : Nat
  deriving Repr, DecidableEq

/-- Embedding of `watch::channel(init)`: channel at version 0 paired with a
receiver that has seen version 0. -/
def watch_channel (init : α) : WatchChannel α × Receiver :=
  (⟨init, 0⟩, ⟨0⟩)

/-- Embedding of `Sender::send_replace`: installs the new value and bumps
the version, notifying all subscribers (even when the value is unchanged). -/
def send_replace (ch : WatchChannel α) (v : α) : WatchChannel α :=
  ⟨v, ch.version + 1⟩

/-- Embedding of `Sender::send_modify`: applies the closure to the current
value and bumps the version. -/
def send_modify (ch : WatchChannel α) (f : α → α) : WatchChannel α :=
  ⟨f ch.value, ch.version + 1⟩

/-- Embedding of `watch::Receiver::clone` (what axum's `State` extraction
performs on `AppState.section_rx` for each request): the clone inherits the
seen version of the receiver it is cloned from. -/
def receiver_clone (rx : Receiver) : Receiver :=
  ⟨rx.seen⟩

/-- The channel created in `main`: `watch_channel::channel((None, None))`. -/
def initial_channel : WatchChannel SectionTuple :=
  (watch_channel ((none, none) : SectionTuple)).1

/-- The receiver stored in `AppState.section_rx` at startup. The stored
receiver is only ever used through `borrow()` and `clone()`, neither of
which marks a version as seen, so its seen version stays 0 for the whole
life of the server. -/
def app_state_rx : Receiver :=
  (watch_channel ((none, none) : SectionTuple)).2

/-- Embedding of `section_segments_to_string` from `main.rs`: category
letter followed by the decimal number when both are present, just the
letter when only the category is present, and a zero-width space (so
vertical space in the UI is maintained) when the category is absent. -/
def section_segments_to_string (segments : SectionTuple) : String :=
  match segments.1 with
  | some sec =>
    match segments.2 with
    | some num => sec.toString ++ toString num
    | none => sec.toString
  | none => "\u200B"

/-- Embedding of the `set_section_type` handler: `send_replace((Some(t), None))`
then `StatusCode::NO_CONTENT` (204). Returns the status code and the
updated channel. -/
def set_section_type (ch : WatchChannel SectionTuple) (section_type : Char) :
    Nat × WatchChannel SectionTuple :=
  (204, send_replace ch (some section_type, none))

/-- Embedding of the `set_section_number` handler:
`send_modify(|val| val.1 = Some(n))` (only the second tuple field is
written) then 204. -/
def set_section_number (ch : WatchChannel SectionTuple) (section_number : Nat) :
    Nat × WatchChannel SectionTuple :=
  (204, send_modify ch (fun val => (val.1, some section_number)))

/-- Embedding of the `clear_section` handler: `send_replace((None, None))`
then 204. -/
def clear_section (ch : WatchChannel SectionTuple) :
    Nat × WatchChannel SectionTuple :=
  (204, send_replace ch (none, none))

/-- Embedding of the request boundary for `PUT /section/number`: axum's
`Form<SectionNumber>` extraction deserializes `section_number` into a
`NonZeroUsize`, which fails for zero (and for negative values, which
already fail the unsigned parse). Inputs are modelled as integers so that
negative requests are expressible. -/
def parse_section_number (n : Int) : Option Nat :=
  if 0 < n then some n.toNat else none

/-- Embedding of the full `PUT /section/number` pipeline: a failed `Form`
extraction is rejected with a 422 before the handler body runs (channel
untouched); otherwise the handler runs. -/
def handle_set_number_request (ch : WatchChannel SectionTuple) (n : Int) :
    Nat × WatchChannel SectionTuple :=
  match parse_section_number n with
  | none => (422, ch)
  | some k => set_section_number ch k

/-- Mutations a controller can issue, one per control handler. -/
inductive Mutation
  | setType (c : Char)
  | setNumber (n : Nat)
  | clear
  deriving Repr, DecidableEq

/-- Channel after one control-handler call. -/
def run_mutation (ch : WatchChannel SectionTuple) : Mutation → WatchChannel SectionTuple
  | .setType c => (set_section_type ch c).2
  | .setNumber n => (set_section_number ch n).2
  | .clear => (clear_section ch).2

/-- Channel after a history of control-handler calls starting from the
fresh channel of `main`. -/
def run_mutations (ms : List Mutation) : WatchChannel SectionTuple :=
  ms.foldl run_mutation initial_channel

/-- Outcome of one iteration of the `section_socket` `select!` loop. -/
inductive StepResult
  | closedByPeer
  | pushed (message : String) (rx : Receiver)
  | closedOnSendError
  | closedOnRenderError
  | closedChannelClosed
  | blocked
  deriving Repr, DecidableEq

/-- Embedding of one iteration of the `loop { tokio::select! { biased; ... } }`
body of `section_socket`. `biased` polls the branches in source order, so a
ready peer-close is always taken before a pending change. `closeReady` is
whether `socket.recv()` is ready with `Some(Ok(Close(_)))`; `alive` is
whether the sender side of the channel still exists (`changed()` errors
only when the sender is gone and no unseen value remains); `render` is the
tera render of `fragments/section-display.html` on the projected section
string (`none` on render error); `sendOk` is whether `socket.send`
succeeds. On a handled change the receiver marks the channel version as
seen and the message carries `borrow()`, the latest value only. -/
def section_socket_step (closeReady : Bool) (ch : WatchChannel SectionTuple)
    (alive : Bool) (rx : Receiver) (render : String → Option String)
    (sendOk : Bool) : StepResult :=
  if closeReady then
    .closedByPeer
  else if ch.version ≠ rx.seen then
    match render (section_segments_to_string ch.value) with
    | some message_text =>
      if sendOk then .pushed message_text ⟨ch.version⟩ else .closedOnSendError
    | none => .closedOnRenderError
  else if alive then
    .blocked
  else
    .closedChannelClosed

/-- Status of one spawned observer-session task. -/
inductive SessionSlot
  | streaming (rx : Receiver)
  | closed
  deriving Repr, DecidableEq

/-- The whole server: the one shared channel, whether its sender is still
alive, and the spawned observer sessions. -/
structure SystemState where
  ch : WatchChannel SectionTuple
  senderAlive : Bool
  sessions : List SessionSlot
  deriving Repr, DecidableEq

/-- Runs one `select!` iteration of session `i` against the shared channel;
every other part of the system is untouched, since the session body only
reads the channel (`borrow`) and updates its own receiver. -/
def system_step (sys : SystemState) (i : Nat) (closeReady : Bool)
    (render : String → Option String) (sendOk : Bool) : SystemState :=
  match sys.sessions[i]? with
  | some (.streaming rx) =>
    let slot :=
      match section_socket_step closeReady sys.ch sys.senderAlive rx render sendOk with
      | .pushed _ rx2 => SessionSlot.streaming rx2
      | .blocked => SessionSlot.streaming rx
      | _ => SessionSlot.closed
    ⟨sys.ch, sys.senderAlive, sys.sessions.set i slot⟩
  | _ => sys

/-- Each control handler bumps the channel version by exactly one. -/
theorem run_mutation_version (ch : WatchChannel SectionTuple) (m : Mutation) :
    (run_mutation ch m).version = ch.version + 1 := by
  cases m <;> rfl

/-- Running a history of mutations advances the version by its length. -/
theorem foldl_run_mutation_version (ms : List Mutation) (ch : WatchChannel SectionTuple) :
    (ms.foldl run_mutation ch).version = ch.version + ms.length := by
  induction ms generalizing ch with
  | nil => rfl
  | cons m ms ih =>
    rw [List.foldl_cons, ih, run_mutation_version, List.length_cons]
    omega

/-- C2: the projection is a single zero-width-space placeholder when the
category is absent (whatever the number holds), the letter followed by the
decimal number when both are present, and just the letter otherwise. -/
theorem projection_rule (o : Option Nat) (c : Char) (n : Nat) :
    section_segments_to_string (none, o) = "\u200B"
    ∧ ("\u200B" : String).length = 1
    ∧ section_segments_to_string (some c, some n) = c.toString ++ Nat.repr n
    ∧ section_segments_to_string (some c, none) = c.toString :=
  ⟨rfl, rfl, rfl, rfl⟩

/-- C3: from any prior channel state, `SetCategory(letter)` replaces the
whole value with `(Some(letter), None)` — the number is always reset to
absent — and the resulting projection is just the letter. -/
theorem set_category_replaces (ch : WatchChannel SectionTuple) (c : Char) :
    (set_section_type ch c).2.value = (some c, none)
    ∧ (set_section_type ch c).2.value.2 = none
    ∧ section_segments_to_string (set_section_type ch c).2.value = c.toString :=
  ⟨rfl, rfl, rfl⟩

/-- C4: for any prior state and positive `n`, `SetNumber(n)` writes only
the number field and leaves the category field exactly as it was. -/
theorem set_number_preserves_category (ch : WatchChannel SectionTuple) (n : Nat)
    (h : 0 < n) :
    (set_section_number ch n).2.value.1 = ch.value.1
    ∧ (set_section_number ch n).2.value.2 = some n :=
  ⟨rfl, rfl⟩

/-- Witness for C4 at the spec's own example: from `(Some 'B', None)`,
`SetNumber(2)` keeps the category and records the number. -/
theorem set_number_preserves_category_witness :
    0 < 2
    ∧ ((set_section_number ⟨(some 'B', none), 5⟩ 2).2.value.1 = some 'B'
       ∧ (set_section_number ⟨(some 'B', none), 5⟩ 2).2.value.2 = some 2) :=
  ⟨by decide, set_number_preserves_category ⟨(some 'B', none), 5⟩ 2 (by decide)⟩

/-- C5: a `PUT /section/number` request with a zero or negative input is
rejected with a 4xx status at the `Form` extraction boundary; the channel
(value and version, hence any notification) is untouched. -/
theorem set_number_rejects_nonpositive (ch : WatchChannel SectionTuple) (n : Int)
    (h : n ≤ 0) :
    (handle_set_number_request ch n).1 / 100 = 4
    ∧ (handle_set_number_request ch n).2 = ch
    ∧ (handle_set_number_request ch n).2.version = ch.version := by
  have hp : parse_section_number n = none := by
    unfold parse_section_number
    rw [if_neg (by omega)]
  simp only [handle_set_number_request, hp]
  refine ⟨by norm_num, trivial, trivial⟩

/-- Witness for C5: the request body `section_number = -3` against the
fresh channel is rejected and changes nothing. -/
theorem set_number_rejects_nonpositive_witness :
    ((-3 : Int) ≤ 0)
    ∧ ((handle_set_number_request initial_channel (-3)).1 / 100 = 4
       ∧ (handle_set_number_request initial_channel (-3)).2 = initial_channel
       ∧ (handle_set_number_request initial_channel (-3)).2.version
           = initial_channel.version) :=
  ⟨by decide, set_number_rejects_nonpositive initial_channel (-3) (by decide)⟩

/-- C6: a positive `SetNumber(n)` issued while the category is `None` is
accepted (204), yields state `(None, Some n)`, and the projection of that
state is still just the invisible placeholder. -/
theorem set_number_without_category (ch : WatchChannel SectionTuple) (n : Nat)
    (hn : 0 < n) (hc : ch.value.1 = none) :
    (handle_set_number_request ch (n : Int)).1 = 204
    ∧ (handle_set_number_request ch (n : Int)).2.value = (none, some n)
    ∧ section_segments_to_string (handle_set_number_request ch (n : Int)).2.value
        = "\u200B" := by
  have hp : parse_section_number (n : Int) = some n := by
    unfold parse_section_number
    rw [if_pos (by exact_mod_cast hn)]
    simp
  unfold handle_set_number_request
  rw [hp]
  unfold set_section_number send_modify
  refine ⟨rfl, ?_, ?_⟩
  · simp [hc]
  · simp [hc, section_segments_to_string]

/-- Witness for C6: `SetNumber(1)` on the fresh channel (category `None`)
records the number yet projects the placeholder. -/
theorem set_number_without_category_witness :
    (0 < 1 ∧ initial_channel.value.1 = none)
    ∧ ((handle_set_number_request initial_channel ((1 : Nat) : Int)).1 = 204
       ∧ (handle_set_number_request initial_channel ((1 : Nat) : Int)).2.value
           = (none, some 1)
       ∧ section_segments_to_string
           (handle_set_number_request initial_channel ((1 : Nat) : Int)).2.value
           = "\u200B") :=
  ⟨⟨by decide, rfl⟩, set_number_without_category initial_channel 1 (by decide) rfl⟩

/-- C7: when the peer-close branch is ready in the same `select!` iteration
as a pending change (the channel version differs from the version the
session has seen), the `biased` ordering takes the close branch: the loop
returns without rendering or pushing. -/
theorem close_beats_pending_change (ch : WatchChannel SectionTuple) (alive : Bool)
    (rx : Receiver) (render : String → Option String) (sendOk : Bool)
    (h : ch.version ≠ rx.seen) :
    section_socket_step true ch alive rx render sendOk = .closedByPeer :=
  rfl

/-- Witness for C7: a session one version behind whose peer closes in the
same iteration terminates without pushing. -/
theorem close_beats_pending_change_witness :
    ((⟨(some 'A', none), 1⟩ : WatchChannel SectionTuple).version ≠ (⟨0⟩ : Receiver).seen)
    ∧ section_socket_step true ⟨(some 'A', none), 1⟩ true ⟨0⟩ Option.some true
        = .closedByPeer :=
  ⟨by decide, close_beats_pending_change ⟨(some 'A', none), 1⟩ true ⟨0⟩ Option.some true
    (by decide)⟩

/-- C8: a render failure while pushing a live update closes that one
session only: the shared channel (value, version and sender) is unmodified
and every other session slot is exactly as before. -/
theorem render_failure_isolated (sys : SystemState) (i : Nat) (rx : Receiver)
    (render : String → Option String) (sendOk : Bool)
    (hs : sys.sessions[i]? = some (.streaming rx))
    (hready : sys.ch.version ≠ rx.seen)
    (hrender : render (section_segments_to_string sys.ch.value) = none) :
    (system_step sys i false render sendOk).ch = sys.ch
    ∧ (system_step sys i false render sendOk).senderAlive = sys.senderAlive
    ∧ (system_step sys i false render sendOk).sessions[i]? = some .closed
    ∧ ∀ j, j ≠ i →
        (system_step sys i false render sendOk).sessions[j]? = sys.sessions[j]? := by
  have hlen : i < sys.sessions.length := by
    by_contra hc
    push_neg at hc
    rw [List.getElem?_eq_none hc] at hs
    exact Option.noConfusion hs
  have hstep : section_socket_step false sys.ch sys.senderAlive rx render sendOk
      = .closedOnRenderError := by
    unfold section_socket_step
    rw [if_neg (by simp), if_pos hready, hrender]
  simp only [system_step, hs, hstep]
  refine ⟨trivial, trivial, ?_, ?_⟩
  · exact List.getElem?_set_eq_of_lt _ hlen
  · intro j hj
    exact List.getElem?_set_ne (fun he => hj he.symm)

/-- Witness for C8: with two live sessions, a render failure in the second
closes it while the channel and the first session are untouched. -/
theorem render_failure_isolated_witness :
    ((⟨⟨(some 'A', none), 1⟩, true,
        [SessionSlot.streaming ⟨1⟩, SessionSlot.streaming ⟨0⟩]⟩ :
          SystemState).sessions[1]? = some (.streaming ⟨0⟩)
     ∧ (1 : Nat) ≠ (0 : Nat))
    ∧ ((system_step ⟨⟨(some 'A', none), 1⟩, true,
          [SessionSlot.streaming ⟨1⟩, SessionSlot.streaming ⟨0⟩]⟩ 1 false
          (fun _ => none) true).ch = ⟨(some 'A', none), 1⟩
       ∧ (system_step ⟨⟨(some 'A', none), 1⟩, true,
            [SessionSlot.streaming ⟨1⟩, SessionSlot.streaming ⟨0⟩]⟩ 1 false
            (fun _ => none) true).sessions[1]? = some .closed
       ∧ (system_step ⟨⟨(some 'A', none), 1⟩, true,
            [SessionSlot.streaming ⟨1⟩, SessionSlot.streaming ⟨0⟩]⟩ 1 false
            (fun _ => none) true).sessions[0]?
           = some (SessionSlot.streaming ⟨1⟩)) := by
  have h := render_failure_isolated
    ⟨⟨(some 'A', none), 1⟩, true, [SessionSlot.streaming ⟨1⟩, SessionSlot.streaming ⟨0⟩]⟩
    1 ⟨0⟩ (fun _ => none) true rfl (by decide) rfl
  exact ⟨⟨rfl, by decide⟩, h.1, h.2.2.1, (h.2.2.2 0 (by decide)).trans rfl⟩

/-- C9: `Clear` is idempotent: called twice in a row from any state, each
call returns 204, leaves the state `(None, None)`, and projects the
placeholder. -/
theorem clear_idempotent (ch : WatchChannel SectionTuple) :
    (clear_section ch).1 = 204
    ∧ (clear_section ch).2.value = (none, none)
    ∧ section_segments_to_string (clear_section ch).2.value = "\u200B"
    ∧ (clear_section (clear_section ch).2).1 = 204
    ∧ (clear_section (clear_section ch).2).2.value = (none, none)
    ∧ section_segments_to_string (clear_section (clear_section ch).2).2.value
        = "\u200B" :=
  ⟨rfl, rfl, rfl, rfl, rfl, rfl⟩

/-- C10: `SetCategory` applies no validation to the character: for every
Unicode scalar `c` (digits, whitespace and symbols included) it returns
204 No Content and installs `(Some c, None)`, notifying subscribers. -/
theorem set_category_accepts_any_char (ch : WatchChannel SectionTuple) (c : Char) :
    (set_section_type ch c).1 = 204
    ∧ (set_section_type ch c).2.value = (some c, none)
    ∧ (set_section_type ch c).2.version = ch.version + 1 :=
  ⟨rfl, rfl, rfl⟩

/-- C1 as stated fails on the code: a session connecting to the fresh
channel (no mutation has ever happened, version 0) gets a receiver clone
whose seen version is also 0, so its first `changed()` poll is pending and
the first loop iteration pushes nothing — it blocks. -/
theorem connect_before_any_mutation_pushes_nothing :
    section_socket_step false (run_mutations []) true (receiver_clone app_state_rx)
      Option.some true = .blocked :=
  rfl

/-- C1 amended: a session connecting after at least one mutation finds the
channel version ahead of its cloned receiver's seen version 0, so before
any subsequent change its first loop iteration pushes exactly one message:
the rendered projection of the current (latest) value, never a backlog. -/
theorem connect_after_mutation_pushes_current (ms : List Mutation)
    (hms : ms ≠ []) (render : String → Option String) (t : String)
    (hr : render (section_segments_to_string (run_mutations ms).value) = some t) :
    section_socket_step false (run_mutations ms) true (receiver_clone app_state_rx)
      render true = .pushed t ⟨(run_mutations ms).version⟩ := by
  have hv : (run_mutations ms).version ≠ (receiver_clone app_state_rx).seen := by
    show (run_mutations ms).version ≠ 0
    unfold run_mutations
    rw [foldl_run_mutation_version]
    have hlen : ms.length ≠ 0 := fun h0 => hms (List.length_eq_zero.mp h0)
    show initial_channel.version + ms.length ≠ 0
    omega
  unfold section_socket_step
  rw [if_neg (by simp), if_pos hv, hr]
  simp

/-- Witness for C1 amended: after the single mutation `SetCategory('B')`,
a fresh session immediately pushes the rendered projection of the current
value only. -/
theorem connect_after_mutation_pushes_current_witness :
    (([Mutation.setType 'B'] : List Mutation) ≠ []
     ∧ Option.some (section_segments_to_string (run_mutations [Mutation.setType 'B']).value)
         = some "B")
    ∧ section_socket_step false (run_mutations [Mutation.setType 'B']) true
        (receiver_clone app_state_rx) Option.some true
        = .pushed "B" ⟨(run_mutations [Mutation.setType 'B']).version⟩ :=
  ⟨⟨by decide, rfl⟩,
    connect_after_mutation_pushes_current [Mutation.setType 'B'] (by decide)
      Option.some "B" rfl⟩

end SongDirector
